import Mathlib

/-!
Verification development for the SQL-Web backend (`app.py`).

The source is a Flask application that (a) proxies SQL statements to a MySQL
driver (`/run`, `/ai-run`) and (b) drives a bounded Gemini function-calling
loop over a fixed tool registry (`/ai-chat`).  We shallowly embed the string
safety checks, the tool functions, the direct query path, the tool-call loop
and the session store.  The MySQL driver and the Gemini chat endpoint are
external collaborators; they are modelled as explicit function parameters
(`Driver`, a chat stub), and every invocation the embedded code makes of the
driver is logged so that "the driver is never invoked" is a provable
statement.
-/

/-- A JSON-serializable database cell value as it appears in cursor rows. -/
inductive Value where
  | int (n : Int)
  | str (s : String)
  | null
deriving DecidableEq, Repr

/-- Python `str()` of a database value (used in f-string messages). -/
def Value.pyStr : Value → String
  | .int n => toString n
  | .str s => s
  | .null => "None"

/-! ### Python string primitives

`str.strip`, `str.lower`, `str.upper`, `str.startswith` and the `in`
substring test, restricted to the ASCII range actually exercised by the SQL
keyword checks in the source.  Strings are handled through their underlying
character lists. -/

/-- Python `str.strip` whitespace class (ASCII part). -/
def isPyWs (c : Char) : Bool :=
  c == ' ' || c == '\t' || c == '\n' || c == '\r' || c == '\x0b' || c == '\x0c'

/-- ASCII lower-casing of one character (Python `str.lower` on the ASCII
range; non-ASCII letters never occur in the checked SQL keywords). -/
def lc : Char → Char
  | 'A' => 'a' | 'B' => 'b' | 'C' => 'c' | 'D' => 'd' | 'E' => 'e' | 'F' => 'f'
  | 'G' => 'g' | 'H' => 'h' | 'I' => 'i' | 'J' => 'j' | 'K' => 'k' | 'L' => 'l'
  | 'M' => 'm' | 'N' => 'n' | 'O' => 'o' | 'P' => 'p' | 'Q' => 'q' | 'R' => 'r'
  | 'S' => 's' | 'T' => 't' | 'U' => 'u' | 'V' => 'v' | 'W' => 'w' | 'X' => 'x'
  | 'Y' => 'y' | 'Z' => 'z'
  | c => c

/-- ASCII upper-casing of one character (Python `str.upper` on the ASCII
range). -/
def uc : Char → Char
  | 'a' => 'A' | 'b' => 'B' | 'c' => 'C' | 'd' => 'D' | 'e' => 'E' | 'f' => 'F'
  | 'g' => 'G' | 'h' => 'H' | 'i' => 'I' | 'j' => 'J' | 'k' => 'K' | 'l' => 'L'
  | 'm' => 'M' | 'n' => 'N' | 'o' => 'O' | 'p' => 'P' | 'q' => 'Q' | 'r' => 'R'
  | 's' => 'S' | 't' => 'T' | 'u' => 'U' | 'v' => 'V' | 'w' => 'W' | 'x' => 'X'
  | 'y' => 'Y' | 'z' => 'Z'
  | c => c

/-- `charsStartWith needle hay`: `hay` starts with `needle`
(Python `hay.startswith(needle)` on character lists). -/
def charsStartWith : List Char → List Char → Bool
  | [], _ => true
  | _ :: _, [] => false
  | a :: n, b :: h => a == b && charsStartWith n h

/-- `strHas needle hay`: `needle` occurs as a contiguous substring of `hay`
(Python `needle in hay` on character lists). -/
def strHas (n : List Char) : List Char → Bool
  | [] => n.isEmpty
  | c :: t => charsStartWith n (c :: t) || strHas n t

/-- Python `str.strip` on a character list: drop leading and trailing
whitespace. -/
def pyStripChars (l : List Char) : List Char :=
  ((l.dropWhile isPyWs).reverse.dropWhile isPyWs).reverse

/-- Python `str.strip`. -/
def pyStrip (s : String) : String := ⟨pyStripChars s.data⟩

/-- Python `str.lower` (ASCII). -/
def pyLower (s : String) : String := ⟨s.data.map lc⟩

/-- Python `str.upper` (ASCII). -/
def pyUpper (s : String) : String := ⟨s.data.map uc⟩

/-- Python `s.startswith(pre)`. -/
def pyStartsWith (s pre : String) : Bool := charsStartWith pre.data s.data

/-- Python `sub in s` substring containment. -/
def pyContains (s sub : String) : Bool := strHas sub.data s.data

/-- Python `any(word in s for word in words)`. -/
def containsAny (s : String) (words : List String) : Bool :=
  words.any (fun w => pyContains s w)

/-- Lexicographic order on character lists by code point. -/
def charsLt : List Char → List Char → Bool
  | _, [] => false
  | [], _ :: _ => true
  | a :: as, b :: bs =>
    Nat.blt a.toNat b.toNat || (a.toNat == b.toNat && charsLt as bs)

/-- Python `<` on strings: lexicographic by code point. -/
def strLt (s t : String) : Bool := charsLt s.data t.data

example : pyStrip "  SELECT 1  " = "SELECT 1" := by decide
example : pyUpper " select x" = " SELECT X" := by decide
example : pyStartsWith (pyUpper (pyStrip " select x")) "SELECT" = true := by decide
example : pyContains "drop database foo" "drop database" = true := by decide
example : containsAny (pyLower "DROP Database x") ["drop database", "truncate database"] = true := by
  decide

/-! ### Driver and result-envelope model

`mysql.connection.cursor()` / `cur.execute` is modelled as a function from
the SQL text and the parameter tuple to either an exception message
(`Except.error`, a raised driver exception) or an `ExecResult` capturing
what the code reads off the cursor: the column names of `cur.description`
(`none` models a `None` description, as for non-result statements), the
fetched rows, and `cur.rowcount`. -/

/-- What the source reads from a cursor after `cur.execute`. -/
structure ExecResult where
  description : Option (List String)
  rows : List (List Value)
  rowcount : Int
deriving DecidableEq, Repr

/-- The external MySQL driver: SQL text and parameters to either a raised
exception message or a cursor result. -/
abbrev Driver := String → List String → Except String ExecResult

/-- One `DESCRIBE` row as unpacked by `describe_table` (`col[0]`..`col[5]`). -/
structure ColInfo where
  fieldName : Value
  colType : Value
  nullable : Value
  keyKind : Value
  defaultVal : Value
  extra : Value
deriving DecidableEq, Repr

/-- One foreign-key row as unpacked by `get_foreign_keys` (`fk[0]`..`fk[3]`). -/
structure FkInfo where
  column : Value
  referencesTable : Value
  referencesColumn : Value
  constraintName : Value
deriving DecidableEq, Repr

/-- One relationship row as unpacked by `get_table_relationships`
(`rel[0]`..`rel[4]`). -/
structure RelInfo where
  table : Value
  column : Value
  referencesTable : Value
  referencesColumn : Value
  constraintName : Value
deriving DecidableEq, Repr

/-- The uniform success/error result dictionary returned by every tool and
by the HTTP query paths.  Each Python dictionary key that occurs somewhere
in the source is an optional field; a function sets exactly the keys the
source sets.  The `"data"` key of the direct `/run` path holds either a row
list or a status string; these two shapes are split into `dataRows` and
`dataStatus` (at most one is ever set). -/
structure Envelope where
  success : Bool
  error : Option String := none
  message : Option String := none
  tables : Option (List Value) := none
  count : Option Nat := none
  countValue : Option Value := none
  table : Option String := none
  schema : Option (List ColInfo) := none
  columnCount : Option Nat := none
  foreignKeys : Option (List FkInfo) := none
  relationships : Option (List RelInfo) := none
  columns : Option (List String) := none
  dataRows : Option (List (List (String × Value))) := none
  dataStatus : Option String := none
  results : Option (List (List (String × Value))) := none
  rowCount : Option Nat := none
  query : Option String := none
  purpose : Option String := none
  whereClause : Option String := none
  searchColumn : Option String := none
  searchValue : Option String := none
  autonomous : Option Bool := none
  hint : Option String := none
  details : Option String := none
deriving DecidableEq, Repr

/-- Result of running one embedded handler/tool: the returned envelope, the
log of driver invocations `(sql, params)` it performed, and whether it
committed the connection. -/
structure ToolResult where
  env : Envelope
  calls : List (String × List String)
  committed : Bool := false
deriving DecidableEq, Repr

/-- `{"success": False, "error": e}`. -/
def failEnv (e : String) : Envelope := { success := false, error := some e }

/-- Message of the Python `TypeError` raised by iterating/subscripting `None`
(e.g. `cur.description` being `None`, or `fetchone()` returning `None`). -/
def pyNoneErr : String := "'NoneType' object is not iterable"

/-- Message of the Python `IndexError` raised by `row[i]` on a short tuple. -/
def pyIndexErr : String := "tuple index out of range"

/-! ### Tool registry functions (lines 298–596 of `app.py`) -/

/-- Failure-propagating map: `some` of the pointwise results when every
element succeeds, `none` as soon as one fails (a raised exception inside a
Python list comprehension). -/
def mapOption {α β : Type} (f : α → Option β) : List α → Option (List β)
  | [] => some []
  | a :: l =>
    match f a, mapOption f l with
    | some b, some bs => some (b :: bs)
    | _, _ => none

/-- `[row[0] for row in rows]`; `none` models the `IndexError` raised when a
row is empty. -/
def rowHeads (rows : List (List Value)) : Option (List Value) :=
  mapOption List.head? rows

/-- `list_tables` (app.py:298): `SHOW TABLES`, collect first column. -/
def list_tables (exec : Driver) : ToolResult :=
  let q := "SHOW TABLES"
  match exec q [] with
  | .error e => ⟨failEnv e, [(q, [])], false⟩
  | .ok r =>
    match rowHeads r.rows with
    | none => ⟨failEnv pyIndexErr, [(q, [])], false⟩
    | some tables =>
      ⟨{ success := true, tables := some tables, count := some tables.length,
         message := some ("Found " ++ toString tables.length ++ " tables in database") },
       [(q, [])], false⟩

/-- Unpack `col[0]`..`col[5]` of one `DESCRIBE` row; `none` models the
`IndexError` on a short row. -/
def extract6 (row : List Value) : Option ColInfo := do
  pure ⟨← row.get? 0, ← row.get? 1, ← row.get? 2, ← row.get? 3, ← row.get? 4, ← row.get? 5⟩

/-- `describe_table` (app.py:314): `DESCRIBE` the table and format the six
columns of each row. -/
def describe_table (exec : Driver) (table_name : String) : ToolResult :=
  let q := "DESCRIBE `" ++ table_name ++ "`"
  match exec q [] with
  | .error e => ⟨failEnv e, [(q, [])], false⟩
  | .ok r =>
    match mapOption extract6 r.rows with
    | none => ⟨failEnv pyIndexErr, [(q, [])], false⟩
    | some schema =>
      ⟨{ success := true, table := some table_name, schema := some schema,
         columnCount := some schema.length,
         message := some ("Table '" ++ table_name ++ "' has " ++ toString schema.length ++ " columns") },
       [(q, [])], false⟩

/-- The interpolated `INFORMATION_SCHEMA` query of `get_foreign_keys`
(app.py:348), `dbn` being `app.config["MYSQL_DB"]`. -/
def fkQuery (dbn table_name : String) : String :=
  "\n        SELECT \n            COLUMN_NAME,\n            REFERENCED_TABLE_NAME,\n            REFERENCED_COLUMN_NAME,\n            CONSTRAINT_NAME\n        FROM INFORMATION_SCHEMA.KEY_COLUMN_USAGE\n        WHERE TABLE_SCHEMA = '"
    ++ dbn ++ "'\n        AND TABLE_NAME = '" ++ table_name
    ++ "'\n        AND REFERENCED_TABLE_NAME IS NOT NULL\n        "

/-- Unpack `fk[0]`..`fk[3]` of one foreign-key row. -/
def extract4 (row : List Value) : Option FkInfo := do
  pure ⟨← row.get? 0, ← row.get? 1, ← row.get? 2, ← row.get? 3⟩

/-- `get_foreign_keys` (app.py:344). -/
def get_foreign_keys (exec : Driver) (dbn table_name : String) : ToolResult :=
  let q := fkQuery dbn table_name
  match exec q [] with
  | .error e => ⟨failEnv e, [(q, [])], false⟩
  | .ok r =>
    match mapOption extract4 r.rows with
    | none => ⟨failEnv pyIndexErr, [(q, [])], false⟩
    | some rels =>
      ⟨{ success := true, table := some table_name, foreignKeys := some rels,
         count := some rels.length,
         message := some ("Found " ++ toString rels.length ++ " foreign key(s) in '" ++ table_name ++ "'") },
       [(q, [])], false⟩

/-- The SQL string `preview_table_data` builds after clamping the limit
(app.py:387). -/
def previewSql (table_name : String) (lim : Int) : String :=
  "SELECT * FROM `" ++ table_name ++ "` LIMIT " ++ toString lim

/-- `preview_table_data` (app.py:382): clamp the limit to `[1, 50]`
(`limit = min(max(1, limit), 50)`), select, and zip each row with the
cursor's column names (`dict(zip(columns, row))`). -/
def preview_table_data (exec : Driver) (table_name : String) (lim : Int) : ToolResult :=
  let lim' := min (max 1 lim) 50
  let q := previewSql table_name lim'
  match exec q [] with
  | .error e => ⟨failEnv e, [(q, [])], false⟩
  | .ok r =>
    match r.description with
    | none => ⟨failEnv pyNoneErr, [(q, [])], false⟩
    | some cols =>
      let data := r.rows.map (fun row => cols.zip row)
      ⟨{ success := true, table := some table_name, columns := some cols,
         dataRows := some data, rowCount := some data.length,
         message := some ("Retrieved " ++ toString data.length ++ " rows from '" ++ table_name ++ "'") },
       [(q, [])], false⟩

/-- `preview_table_data` called without the optional `limit` argument:
the Python default is `limit=10`. -/
def preview_table_data_default (exec : Driver) (table_name : String) : ToolResult :=
  preview_table_data exec table_name 10

/-- `execute_select_query` (app.py:405): allow only statements whose
stripped upper-cased form starts with `SELECT`, `SHOW` or `DESCRIBE`; on
the driver path, guard `cur.description` (`if cur.description else []`)
and build row mappings only when columns exist (`... if columns else []`). -/
def execute_select_query (exec : Driver) (query purpose : String) : ToolResult :=
  let qUp := pyUpper (pyStrip query)
  if !(pyStartsWith qUp "SELECT" || pyStartsWith qUp "SHOW" || pyStartsWith qUp "DESCRIBE") then
    ⟨failEnv "Only SELECT, SHOW, and DESCRIBE queries are allowed with this tool", [], false⟩
  else
    match exec query [] with
    | .error e => ⟨{ success := false, error := some e, query := some query }, [(query, [])], false⟩
    | .ok r =>
      let cols := r.description.getD []
      let data := if cols.isEmpty then [] else r.rows.map (fun row => cols.zip row)
      ⟨{ success := true, query := some query, purpose := some purpose,
         columns := some cols, dataRows := some data, rowCount := some data.length,
         message := some ("Query executed successfully, returned " ++ toString data.length ++ " rows") },
       [(query, [])], false⟩

/-- `get_table_relationships` interpolated query (app.py:444). -/
def relQuery (dbn : String) : String :=
  "\n        SELECT \n            TABLE_NAME,\n            COLUMN_NAME,\n            REFERENCED_TABLE_NAME,\n            REFERENCED_COLUMN_NAME,\n            CONSTRAINT_NAME\n        FROM INFORMATION_SCHEMA.KEY_COLUMN_USAGE\n        WHERE TABLE_SCHEMA = '"
    ++ dbn ++ "'\n        AND REFERENCED_TABLE_NAME IS NOT NULL\n        ORDER BY TABLE_NAME, COLUMN_NAME\n        "

/-- Unpack `rel[0]`..`rel[4]` of one relationship row. -/
def extract5 (row : List Value) : Option RelInfo := do
  pure ⟨← row.get? 0, ← row.get? 1, ← row.get? 2, ← row.get? 3, ← row.get? 4⟩

/-- `get_table_relationships` (app.py:440). -/
def get_table_relationships (exec : Driver) (dbn : String) : ToolResult :=
  let q := relQuery dbn
  match exec q [] with
  | .error e => ⟨failEnv e, [(q, [])], false⟩
  | .ok r =>
    match mapOption extract5 r.rows with
    | none => ⟨failEnv pyIndexErr, [(q, [])], false⟩
    | some rels =>
      ⟨{ success := true, relationships := some rels, count := some rels.length,
         message := some ("Found " ++ toString rels.length ++ " foreign key relationship(s)") },
       [(q, [])], false⟩

/-- The SQL string `count_records` builds (app.py:483). -/
def countSql (table_name where_clause : String) : String :=
  "SELECT COUNT(*) FROM `" ++ table_name ++ "`"
    ++ (if where_clause ≠ "" then " WHERE " ++ where_clause else "")

/-- `count_records` (app.py:479): `SELECT COUNT(*)` with an optional
`WHERE`; `cur.fetchone()[0]` raises when there is no row (`None`
subscripted) or an empty row. -/
def count_records (exec : Driver) (table_name where_clause : String) : ToolResult :=
  let q := countSql table_name where_clause
  match exec q [] with
  | .error e => ⟨failEnv e, [(q, [])], false⟩
  | .ok r =>
    match r.rows with
    | [] => ⟨failEnv "'NoneType' object is not subscriptable", [(q, [])], false⟩
    | row :: _ =>
      match row with
      | [] => ⟨failEnv pyIndexErr, [(q, [])], false⟩
      | cnt :: _ =>
        ⟨{ success := true, table := some table_name, countValue := some cnt,
           whereClause := some (if where_clause ≠ "" then where_clause else "none"),
           message := some ("Found " ++ cnt.pyStr ++ " record(s) in '" ++ table_name ++ "'"
             ++ (if where_clause ≠ "" then " where " ++ where_clause else "")) },
         [(q, [])], false⟩

/-- The parameterized SQL string `search_records` builds (app.py:506). -/
def searchSql (table_name search_column : String) : String :=
  "SELECT * FROM `" ++ table_name ++ "` WHERE `" ++ search_column ++ "` LIKE %s LIMIT 10"

/-- `search_records` (app.py:501): parameterized `LIKE` query with a
hard-coded `LIMIT 10`. -/
def search_records (exec : Driver) (table_name search_column search_value : String) : ToolResult :=
  let q := searchSql table_name search_column
  let params := ["%" ++ search_value ++ "%"]
  match exec q params with
  | .error e => ⟨failEnv e, [(q, params)], false⟩
  | .ok r =>
    match r.description with
    | none => ⟨failEnv pyNoneErr, [(q, params)], false⟩
    | some cols =>
      let data := r.rows.map (fun row => cols.zip row)
      ⟨{ success := true, table := some table_name, searchColumn := some search_column,
         searchValue := some search_value, results := some data, count := some data.length,
         message := some ("Found " ++ toString data.length ++ " record(s) matching '"
           ++ search_value ++ "' in " ++ search_column) },
       [(q, params)], false⟩

/-- The `dangerous_keywords` list of `execute_autonomous_query`
(app.py:544). -/
def dangerousKeywords : List String :=
  ["DROP", "TRUNCATE", "DELETE", "INSERT", "UPDATE", "ALTER", "CREATE"]

/-- `execute_autonomous_query` (app.py:526): only statements whose stripped
upper-cased form starts with `SELECT`; additionally reject any statement
whose upper-cased (un-stripped) text contains one of the dangerous keywords
as a substring. -/
def execute_autonomous_query (exec : Driver) (query purpose : String) : ToolResult :=
  if !pyStartsWith (pyUpper (pyStrip query)) "SELECT" then
    ⟨{ success := false, error := some "Autonomous execution only allows SELECT queries",
       query := some query, purpose := some purpose }, [], false⟩
  else if containsAny (pyUpper query) dangerousKeywords then
    ⟨{ success := false, error := some "Dangerous operations not allowed in autonomous mode",
       query := some query }, [], false⟩
  else
    match exec query [] with
    | .error e =>
      ⟨{ success := false, error := some e, query := some query, purpose := some purpose },
       [(query, [])], false⟩
    | .ok r =>
      let cols := r.description.getD []
      let data := if cols.isEmpty then [] else r.rows.map (fun row => cols.zip row)
      ⟨{ success := true, query := some query, purpose := some purpose,
         columns := some cols, dataRows := some data, rowCount := some data.length,
         message := some ("Autonomous query successful: " ++ toString data.length ++ " rows returned"),
         autonomous := some true },
       [(query, [])], false⟩

example :
    (execute_autonomous_query (fun _ _ => .error "db") "SELECT created_at FROM t" "p").env.error
      = some "Dangerous operations not allowed in autonomous mode" := rfl

/-! ### HTTP query endpoints (`/ai-run`, `/run`) -/

/-- The `dangerous_keywords` denylist of the `/ai-run` handler (app.py:826). -/
def aiRunKeywords : List String :=
  ["drop", "truncate", "delete", "insert", "update", "alter", "create", "grant", "revoke", "replace"]

/-- `/ai-run` handler `ai_autonomous_query` (app.py:786): strip the body
query, reject empty, reject non-`select` prefixes
(`query.lower().strip().startswith("select")`), reject denylisted keyword
substrings (`keyword in query.lower()`), then execute. -/
def ai_autonomous_query (exec : Driver) (rawQuery purpose : String) : ToolResult :=
  let query := pyStrip rawQuery
  if query = "" then ⟨failEnv "Empty query.", [], false⟩
  else if !pyStartsWith (pyStrip (pyLower query)) "select" then
    ⟨{ success := false, error := some "AI autonomous execution only allows SELECT queries for safety.",
       hint := some "Use other tools for INSERT/UPDATE/DELETE operations" }, [], false⟩
  else if containsAny (pyLower query) aiRunKeywords then
    ⟨{ success := false, error := some "Dangerous operation blocked in AI autonomous mode.",
       details := some "Only SELECT queries allowed for AI self-directed execution" }, [], false⟩
  else
    match exec query [] with
    | .error e =>
      ⟨{ success := false, error := some e, query := some query, purpose := some purpose,
         autonomous := some true }, [(query, [])], false⟩
    | .ok r =>
      let cols := r.description.getD []
      -- data = [dict(zip(columns, row)) for row in rows]  (no `if columns` guard here)
      let data := r.rows.map (fun row => cols.zip row)
      ⟨{ success := true, dataRows := some data, rowCount := some data.length,
         columns := some cols, purpose := some purpose, query := some query,
         autonomous := some true }, [(query, [])], false⟩

/-- The `/run` denylist (app.py:885). -/
def blockedPhrases : List String := ["drop database", "truncate database"]

/-- Does the stripped statement start (case-insensitively) with `select`,
`show` or `describe` (app.py:896)? -/
def readVerbCheck (query : String) : Bool :=
  pyStartsWith (pyLower query) "select" || pyStartsWith (pyLower query) "show"
    || pyStartsWith (pyLower query) "describe"

/-- `/run` handler `run_query` (app.py:876): strip, reject empty, reject
denylisted phrases, execute; read statements return row mappings, all other
statements commit and return an affected-row status string. -/
def run_query (exec : Driver) (rawQuery : String) : ToolResult :=
  let query := pyStrip rawQuery
  if query = "" then ⟨failEnv "Empty query.", [], false⟩
  else if containsAny (pyLower query) blockedPhrases then
    ⟨failEnv "Dangerous query blocked for safety.", [], false⟩
  else
    match exec query [] with
    | .error e => ⟨failEnv e, [(query, [])], false⟩
    | .ok r =>
      if readVerbCheck query then
        -- columns = [d[0] for d in cur.description]; raises on a None description
        match r.description with
        | none => ⟨failEnv pyNoneErr, [(query, [])], false⟩
        | some cols =>
          ⟨{ success := true, dataRows := some (r.rows.map (fun row => cols.zip row)) },
           [(query, [])], false⟩
      else
        ⟨{ success := true,
           dataStatus := some ("Query executed successfully. Rows affected: " ++ toString r.rowcount) },
         [(query, [])], true⟩

/-! ### The `/ai-chat` tool-call loop (app.py:670–731)

The Gemini chat is external: the k-th in-loop `chat.send_message` of
collected function responses is modelled by `chat k`.  Tool execution is
parametrised by `execTool` (the bodies are the functions verified above;
the loop only needs their envelopes), mirroring the
`TOOL_FUNCTIONS[function_name](**function_args)` dispatch. -/

/-- One structured tool-invocation request in a model response
(`part.function_call`). -/
structure FnCall where
  name : String
  args : List (String × Value)
deriving DecidableEq, Repr

/-- One model response: its tool-invocation requests and its text. -/
structure ModelResponse where
  calls : List FnCall
  text : String
deriving DecidableEq, Repr

/-- One entry of the `tool_calls` transparency log (app.py:699). -/
structure ToolCallRec where
  fn : String
  args : List (String × Value)
  result : Envelope
  iteration : Nat
deriving DecidableEq, Repr

/-- The domain of the `TOOL_FUNCTIONS` registry dict (app.py:586). -/
def TOOL_NAMES : List String :=
  ["list_tables", "describe_table", "get_foreign_keys", "preview_table_data",
   "execute_select_query", "execute_autonomous_query", "get_table_relationships",
   "count_records", "search_records"]

/-- The body of the `for part in function_calls_in_response` loop
(app.py:689–718): for each requested invocation, a known name is executed,
recorded in `tool_calls` and appended to `function_responses`; an unknown
name is only printed.  Returns the records produced this turn and the
number of collected function responses. -/
def dispatchStep (execTool : String → List (String × Value) → Envelope) (iter : Nat)
    (acc : List ToolCallRec × Nat) (fc : FnCall) : List ToolCallRec × Nat :=
  if TOOL_NAMES.contains fc.name then
    (acc.1 ++ [⟨fc.name, fc.args, execTool fc.name fc.args, iter⟩], acc.2 + 1)
  else acc

def dispatchTurn (execTool : String → List (String × Value) → Envelope) (iter : Nat)
    (calls : List FnCall) : List ToolCallRec × Nat :=
  calls.foldl (dispatchStep execTool iter) ([], 0)

/-- State of the `while iterations < max_iterations` loop. -/
structure LoopState where
  response : ModelResponse
  iterations : Nat
  toolCalls : List ToolCallRec
  sends : Nat
deriving DecidableEq, Repr

/-- `max_iterations = 15` (app.py:672). -/
def maxIterations : Nat := 15

/-- The `while iterations < max_iterations` loop (app.py:675), with
`fuel = max_iterations - iterations` (the loop body increments `iterations`
by exactly one per pass).  A response with no function calls breaks; all
collected function responses are sent back through `chat` in a single
follow-up turn; if no function responses were collected (all names
unknown), `response` is left unchanged and the loop re-enters. -/
def toolLoop (chat : Nat → ModelResponse) (execTool : String → List (String × Value) → Envelope) :
    Nat → LoopState → LoopState
  | 0, st => st
  | fuel + 1, st =>
    if st.response.calls.isEmpty then st
    else
      let it := st.iterations + 1
      let step := dispatchTurn execTool it st.response.calls
      if step.2 > 0 then
        toolLoop chat execTool fuel ⟨chat st.sends, it, st.toolCalls ++ step.1, st.sends + 1⟩
      else
        toolLoop chat execTool fuel ⟨st.response, it, st.toolCalls ++ step.1, st.sends⟩

/-- The full loop as entered by `ai_chat` right after the initial
`chat.send_message(current_message)` produced `initial`. -/
def runToolLoop (chat : Nat → ModelResponse)
    (execTool : String → List (String × Value) → Envelope) (initial : ModelResponse) : LoopState :=
  toolLoop chat execTool maxIterations ⟨initial, 0, [], 0⟩

/-! ### Conversation session store (app.py:202, 627, 737–749) -/

/-- The process-wide `conversation_sessions` dict: an insertion-ordered map
from session id to the message history (role, content). -/
abbrev Sessions := List (String × List (String × String))

/-- `session_id in conversation_sessions`. -/
def sessionsHasKey (ss : Sessions) (k : String) : Bool := ss.any (fun kv => kv.1 == k)

/-- `min(conversation_sessions.keys())`: the lexicographically smallest key
(Python `min` keeps the first of equal keys). -/
def minKey : Sessions → Option String
  | [] => none
  | (k, _) :: t => some (t.foldl (fun m kv => if strLt kv.1 m then kv.1 else m) k)

/-- The session-store effect of one `/ai-chat` request (app.py:627–749):
create the session if absent, append the user and assistant messages, and
if the store now exceeds 100 entries delete `min(keys())`. -/
def sessionStep (ss : Sessions) (sid userMsg respText : String) : Sessions :=
  let ss1 := if sessionsHasKey ss sid then ss else ss ++ [(sid, [])]
  let ss2 := ss1.map (fun kv =>
    if kv.1 == sid then (kv.1, kv.2 ++ [("user", userMsg), ("assistant", respText)]) else kv)
  if ss2.length > 100 then
    match minKey ss2 with
    | some k => ss2.filter (fun kv => !(kv.1 == k))
    | none => ss2
  else ss2

example :
    sessionStep [] "s1" "u" "r" = [("s1", [("user", "u"), ("assistant", "r")])] := rfl

/-! ### String lemmas

Facts about the Python string primitives needed to relate the checks the
handlers perform on stripped/case-folded text to properties of the
submitted text. -/

theorem ws_lc (c : Char) : isPyWs (lc c) = isPyWs c := by
  unfold lc; split <;> rfl

theorem dropWhile_map_lc (l : List Char) :
    (l.map lc).dropWhile isPyWs = (l.dropWhile isPyWs).map lc := by
  induction l with
  | nil => rfl
  | cons c t ih =>
    simp only [List.map_cons, List.dropWhile_cons, ws_lc]
    by_cases h : isPyWs c
    · simp [h, ih]
    · simp [h]

theorem stripChars_map_lc (l : List Char) :
    pyStripChars (l.map lc) = (pyStripChars l).map lc := by
  unfold pyStripChars
  rw [dropWhile_map_lc, ← List.map_reverse, dropWhile_map_lc, ← List.map_reverse]

theorem charsStartWith_iff (n l : List Char) :
    charsStartWith n l = true ↔ ∃ b, l = n ++ b := by
  induction n generalizing l with
  | nil => simp [charsStartWith]
  | cons a n ih =>
    cases l with
    | nil =>
      simp only [charsStartWith, List.cons_append]
      constructor
      · intro h; cases h
      · rintro ⟨b, h⟩; cases h
    | cons b h =>
      simp only [charsStartWith, Bool.and_eq_true, beq_iff_eq, ih, List.cons_append,
        List.cons.injEq]
      constructor
      · rintro ⟨rfl, t, rfl⟩; exact ⟨t, rfl, rfl⟩
      · rintro ⟨t, rfl, rfl⟩; exact ⟨rfl, t, rfl⟩

theorem strHas_iff (n l : List Char) :
    strHas n l = true ↔ ∃ a b, l = a ++ n ++ b := by
  induction l with
  | nil =>
    simp only [strHas, List.isEmpty_iff]
    constructor
    · rintro rfl; exact ⟨[], [], rfl⟩
    · rintro ⟨a, b, h⟩
      rcases List.append_eq_nil.mp h.symm with ⟨h1, h2⟩
      exact (List.append_eq_nil.mp h1).2
  | cons c t ih =>
    simp only [strHas, Bool.or_eq_true, charsStartWith_iff, ih]
    constructor
    · rintro (⟨b, hb⟩ | ⟨a, b, rfl⟩)
      · exact ⟨[], b, by simpa using hb⟩
      · exact ⟨c :: a, b, by simp⟩
    · rintro ⟨a, b, heq⟩
      cases a with
      | nil => exact Or.inl ⟨b, by simpa using heq⟩
      | cons x a' =>
        simp only [List.cons_append, List.cons.injEq] at heq
        exact Or.inr ⟨a', b, heq.2⟩

theorem strHas_drop {d : Char} {r : List Char} (hd : isPyWs d = false) :
    ∀ {l : List Char}, strHas (d :: r) l = true →
      strHas (d :: r) (l.dropWhile isPyWs) = true := by
  intro l h
  induction l with
  | nil => simp [strHas] at h
  | cons c t ih =>
    rw [List.dropWhile_cons]
    rcases Bool.or_eq_true _ _ |>.mp h with h1 | h2
    · have hc : d = c := by
        have := h1
        simp only [charsStartWith, Bool.and_eq_true, beq_iff_eq] at this
        exact this.1
      have : isPyWs c = false := hc ▸ hd
      simp [this, strHas, h]
    · by_cases hc : isPyWs c
      · simp only [hc, if_true]; exact ih h2
      · simp only [hc, if_false]
        exact h

theorem strHas_rev {n l : List Char} (h : strHas n l = true) :
    strHas n.reverse l.reverse = true := by
  rw [strHas_iff] at h ⊢
  obtain ⟨a, b, rfl⟩ := h
  exact ⟨b.reverse, a.reverse, by simp⟩

theorem strHas_pyStripChars {n l : List Char} (hn : n ≠ [])
    (hd : isPyWs (n.headD ' ') = false) (he : isPyWs (n.getLastD ' ') = false)
    (h : strHas n l = true) : strHas n (pyStripChars l) = true := by
  obtain ⟨d, r, rfl⟩ : ∃ d r, n = d :: r := by
    cases n with
    | nil => exact absurd rfl hn
    | cons d r => exact ⟨d, r, rfl⟩
  have hd' : isPyWs d = false := by simpa using hd
  rcases hr : (d :: r).reverse with _ | ⟨e, rr⟩
  · exact absurd hr (by simp)
  · have he' : isPyWs e = false := by
      have : (d :: r).getLast? = some e := by
        rw [← List.head?_reverse, hr]; rfl
      have hlast : (d :: r).getLastD ' ' = e := by
        rw [List.getLastD_eq_getLast?, this]; rfl
      rwa [hlast] at he
    unfold pyStripChars
    have h1 := strHas_drop hd' h
    have h2 := strHas_rev h1
    rw [hr] at h2
    have h3 := strHas_drop he' h2
    have h4 := strHas_rev h3
    rw [← hr, List.reverse_reverse] at h4
    exact h4

/-- Nonempty substrings only occur in nonempty haystacks. -/
theorem strHas_ne_nil {n l : List Char} (hn : n ≠ []) (h : strHas n l = true) : l ≠ [] := by
  intro hl
  subst hl
  simp only [strHas, List.isEmpty_iff] at h
  exact hn h

/-! ### Dispatch and loop lemmas -/

theorem dispatchFold_snd_le (execTool : String → List (String × Value) → Envelope) (iter : Nat) :
    ∀ (calls : List FnCall) (acc : List ToolCallRec × Nat),
      acc.2 ≤ (calls.foldl (dispatchStep execTool iter) acc).2 := by
  intro calls
  induction calls with
  | nil => intro acc; exact Nat.le_refl _
  | cons fc t ih =>
    intro acc
    refine Nat.le_trans ?_ (ih (dispatchStep execTool iter acc fc))
    unfold dispatchStep
    split
    · exact Nat.le_succ _
    · exact Nat.le_refl _

theorem dispatchFold_pos (execTool : String → List (String × Value) → Envelope) (iter : Nat) :
    ∀ (calls : List FnCall) (acc : List ToolCallRec × Nat),
      (∃ c ∈ calls, TOOL_NAMES.contains c.name = true) →
      acc.2 < (calls.foldl (dispatchStep execTool iter) acc).2 := by
  intro calls
  induction calls with
  | nil => rintro acc ⟨c, hc, _⟩; cases hc
  | cons fc t ih =>
    rintro acc ⟨c, hc, hknown⟩
    rcases List.mem_cons.mp hc with rfl | hmem
    · simp only [List.foldl_cons]
      refine Nat.lt_of_lt_of_le ?_ (dispatchFold_snd_le execTool iter t _)
      unfold dispatchStep
      rw [hknown]
      simp
    · simp only [List.foldl_cons]
      refine Nat.lt_of_le_of_lt ?_ (ih (dispatchStep execTool iter acc fc) ⟨c, hmem, hknown⟩)
      unfold dispatchStep
      split
      · exact Nat.le_succ _
      · exact Nat.le_refl _

theorem dispatchFold_unknown (execTool : String → List (String × Value) → Envelope) (iter : Nat) :
    ∀ (calls : List FnCall) (acc : List ToolCallRec × Nat),
      (∀ c ∈ calls, TOOL_NAMES.contains c.name = false) →
      calls.foldl (dispatchStep execTool iter) acc = acc := by
  intro calls
  induction calls with
  | nil => intro acc _; rfl
  | cons fc t ih =>
    intro acc hall
    simp only [List.foldl_cons]
    have hfc : TOOL_NAMES.contains fc.name = false := hall fc (List.mem_cons_self fc t)
    have : dispatchStep execTool iter acc fc = acc := by
      unfold dispatchStep
      rw [hfc]
      simp
    rw [this]
    exact ih acc (fun c hc => hall c (List.mem_cons_of_mem fc hc))

/-- When every model response requests at least one registered tool, each
loop pass consumes one unit of fuel, performs one model round trip, and the
final response is the last round trip's. -/
theorem toolLoop_allKnown (chat : Nat → ModelResponse)
    (execTool : String → List (String × Value) → Envelope) :
    ∀ (fuel : Nat) (st : LoopState), 0 < fuel →
      (∃ c ∈ st.response.calls, TOOL_NAMES.contains c.name = true) →
      (∀ k, ∃ c ∈ (chat k).calls, TOOL_NAMES.contains c.name = true) →
      (toolLoop chat execTool fuel st).iterations = st.iterations + fuel ∧
      (toolLoop chat execTool fuel st).sends = st.sends + fuel ∧
      (toolLoop chat execTool fuel st).response = chat (st.sends + fuel - 1) := by
  intro fuel
  induction fuel with
  | zero => intro st h; cases h
  | succ f ih =>
    intro st _ hst hchat
    have hne : st.response.calls.isEmpty = false := by
      rcases hst with ⟨c, hc, _⟩
      cases h : st.response.calls with
      | nil => rw [h] at hc; cases hc
      | cons a t => rfl
    have hpos : 0 < (dispatchTurn execTool (st.iterations + 1) st.response.calls).2 :=
      dispatchFold_pos execTool (st.iterations + 1) st.response.calls ([], 0) hst
    simp only [toolLoop, hne, Bool.false_eq_true, if_false, hpos, if_pos]
    cases f with
    | zero => simp [toolLoop]
    | succ f' =>
      obtain ⟨h1, h2, h3⟩ := ih ⟨chat st.sends, st.iterations + 1,
        st.toolCalls ++ (dispatchTurn execTool (st.iterations + 1) st.response.calls).1,
        st.sends + 1⟩ (Nat.succ_pos f') (hchat st.sends) hchat
      dsimp only at h1 h2 h3
      refine ⟨?_, ?_, ?_⟩
      · rw [h1]; omega
      · rw [h2]; omega
      · rw [h3]
        congr 1
        omega

/-- A turn whose every requested tool name is unknown dispatches nothing
and leaves the response, the transparency log and the send count untouched;
the loop keeps re-entering until the fuel (iteration budget) is exhausted. -/
theorem toolLoop_allUnknown (chat : Nat → ModelResponse)
    (execTool : String → List (String × Value) → Envelope) :
    ∀ (fuel : Nat) (st : LoopState), st.response.calls ≠ [] →
      (∀ c ∈ st.response.calls, TOOL_NAMES.contains c.name = false) →
      toolLoop chat execTool fuel st =
        ⟨st.response, st.iterations + fuel, st.toolCalls, st.sends⟩ := by
  intro fuel
  induction fuel with
  | zero => intro st _ _; simp [toolLoop]
  | succ f ih =>
    intro st hne hall
    have hne' : st.response.calls.isEmpty = false := by
      cases h : st.response.calls with
      | nil => exact absurd h hne
      | cons a t => rfl
    have hdis : dispatchTurn execTool (st.iterations + 1) st.response.calls = ([], 0) :=
      dispatchFold_unknown execTool (st.iterations + 1) st.response.calls ([], 0) hall
    simp only [toolLoop, hne', Bool.false_eq_true, if_false, hdis]
    simp only [Nat.lt_irrefl, if_false]
    rw [ih ⟨st.response, st.iterations + 1, st.toolCalls ++ [], st.sends⟩ hne hall]
    simp only [List.append_nil]
    congr 1
    omega

/-! ### Shared concrete drivers and stubs used by witnesses -/

/-- A driver that answers every statement with one one-column row. -/
def okDriver : Driver := fun _ _ => .ok ⟨some ["1"], [[.int 1]], -1⟩

/-- A driver that raises on every statement. -/
def errDriver : Driver := fun _ _ => .error "boom"

/-- A model stub that always requests the registered `list_tables` tool. -/
def stubResp : ModelResponse := ⟨[⟨"list_tables", []⟩], "working"⟩

/-- A model stub whose only requested tool name is unknown to the registry. -/
def badResp : ModelResponse := ⟨[⟨"nonexistent_tool", []⟩], "stuck"⟩

/-- A trivial tool executor for loop-level statements. -/
def stubExec : String → List (String × Value) → Envelope := fun _ _ => { success := true }

/-! ### Claims -/

/-- C10: every query that starts (after stripping, upper-cased) with
`SELECT` but contains one of `DROP`, `TRUNCATE`, `DELETE`, `INSERT`,
`UPDATE`, `ALTER`, `CREATE` as a case-insensitive substring anywhere —
including inside identifiers such as a column named `created_at` — is
rejected by `execute_autonomous_query` with a failure envelope, and the
database driver is never invoked. -/
theorem C10_select_keyword_rejection (exec : Driver) (q p : String)
    (hsel : pyStartsWith (pyUpper (pyStrip q)) "SELECT" = true)
    (hkw : containsAny (pyUpper q) dangerousKeywords = true) :
    (execute_autonomous_query exec q p).env.success = false ∧
    (execute_autonomous_query exec q p).env.error
      = some "Dangerous operations not allowed in autonomous mode" ∧
    (execute_autonomous_query exec q p).calls = [] := by
  simp [execute_autonomous_query, hsel, hkw]

/-- C10 witness: `SELECT created_at FROM users` is a syntactically valid
SELECT query that the tool rejects because `CREATED_AT` contains `CREATE`. -/
theorem C10_select_keyword_rejection_witness :
    pyStartsWith (pyUpper (pyStrip "SELECT created_at FROM users")) "SELECT" = true ∧
    containsAny (pyUpper "SELECT created_at FROM users") dangerousKeywords = true ∧
    (execute_autonomous_query okDriver "SELECT created_at FROM users" "check").env.success
      = false ∧
    (execute_autonomous_query okDriver "SELECT created_at FROM users" "check").calls = [] := by
  have h := C10_select_keyword_rejection okDriver "SELECT created_at FROM users" "check"
    (by decide) (by decide)
  exact ⟨by decide, by decide, h.1, h.2.2⟩

/-- C4 counterexample: the statement `" SELECT 1"` (leading space) has an
un-trimmed, case-folded form that does not begin with any allowed verb, yet
all three query-accepting paths accept it and invoke the database driver
(`/ai-run` after stripping it), instead of rejecting it as the claim
states. -/
theorem C4_untrimmed_counterexample :
    (pyStartsWith (pyUpper " SELECT 1") "SELECT" = false ∧
     pyStartsWith (pyUpper " SELECT 1") "SHOW" = false ∧
     pyStartsWith (pyUpper " SELECT 1") "DESCRIBE" = false ∧
     pyStartsWith (pyLower " SELECT 1") "select" = false) ∧
    (execute_select_query okDriver " SELECT 1" "p").env.success = true ∧
    (execute_select_query okDriver " SELECT 1" "p").calls = [(" SELECT 1", [])] ∧
    (execute_autonomous_query okDriver " SELECT 1" "p").env.success = true ∧
    (execute_autonomous_query okDriver " SELECT 1" "p").calls = [(" SELECT 1", [])] ∧
    (ai_autonomous_query okDriver " SELECT 1" "p").env.success = true ∧
    (ai_autonomous_query okDriver " SELECT 1" "p").calls = [("SELECT 1", [])] := by
  exact ⟨⟨by decide, by decide, by decide, by decide⟩, rfl, rfl, rfl, rfl, rfl, rfl⟩

/-- C4 (amended: the verb check applies to the trimmed, case-folded form):
each query-accepting path rejects, with a failure envelope carrying an
error string and without invoking the driver, any statement whose trimmed
case-folded form does not begin with that path's allowed verbs
(`SELECT`/`SHOW`/`DESCRIBE` for `execute_select_query`, `SELECT` only for
`execute_autonomous_query` and `/ai-run`). -/
theorem C4_trimmed_verb_gate (exec : Driver) (q p : String) :
    (pyStartsWith (pyUpper (pyStrip q)) "SELECT" = false →
     pyStartsWith (pyUpper (pyStrip q)) "SHOW" = false →
     pyStartsWith (pyUpper (pyStrip q)) "DESCRIBE" = false →
     (execute_select_query exec q p).env.success = false ∧
     (execute_select_query exec q p).env.error.isSome = true ∧
     (execute_select_query exec q p).calls = []) ∧
    (pyStartsWith (pyUpper (pyStrip q)) "SELECT" = false →
     (execute_autonomous_query exec q p).env.success = false ∧
     (execute_autonomous_query exec q p).env.error.isSome = true ∧
     (execute_autonomous_query exec q p).calls = []) ∧
    (pyStartsWith (pyStrip (pyLower (pyStrip q))) "select" = false →
     (ai_autonomous_query exec q p).env.success = false ∧
     (ai_autonomous_query exec q p).env.error.isSome = true ∧
     (ai_autonomous_query exec q p).calls = []) := by
  refine ⟨?_, ?_, ?_⟩
  · intro h1 h2 h3
    simp [execute_select_query, h1, h2, h3, failEnv]
  · intro h1
    simp [execute_autonomous_query, h1]
  · intro h1
    by_cases hq : pyStrip q = ""
    · simp [ai_autonomous_query, hq, failEnv]
    · simp [ai_autonomous_query, hq, h1]

/-- C4 witness: `DELETE FROM t` is rejected by all three paths and the
driver is never invoked. -/
theorem C4_trimmed_verb_gate_witness :
    (execute_select_query okDriver "DELETE FROM t" "p").env.success = false ∧
    (execute_select_query okDriver "DELETE FROM t" "p").calls = [] ∧
    (execute_autonomous_query okDriver "DELETE FROM t" "p").calls = [] ∧
    (ai_autonomous_query okDriver "DELETE FROM t" "p").calls = [] := by
  have h := C4_trimmed_verb_gate okDriver "DELETE FROM t" "p"
  obtain ⟨hA, hB, hC⟩ := h
  obtain ⟨a1, a2, a3⟩ := hA (by decide) (by decide) (by decide)
  exact ⟨a1, a3, (hB (by decide)).2.2, (hC (by decide)).2.2⟩

/-- The row count a tool result reports through its `data` field. -/
def rowsOf (tr : ToolResult) : Nat :=
  match tr.env.dataRows with
  | some d => d.length
  | none => 0

/-- `preview_table_data` never returns more `data` rows than the clamped
limit, provided the driver honors the `LIMIT` clause of the query the tool
sends it. -/
theorem preview_rows_le (exec : Driver) (t : String) (lim : Int)
    (hexec : ∀ (n : Int) (r : ExecResult),
      exec (previewSql t n) [] = Except.ok r → r.rows.length ≤ n.toNat) :
    rowsOf (preview_table_data exec t lim) ≤ (min (max 1 lim) 50).toNat := by
  cases h : exec (previewSql t (min (max 1 lim) 50)) [] with
  | error e =>
    simp only [preview_table_data, rowsOf, h, failEnv]
    exact Nat.zero_le _
  | ok r =>
    cases hd : r.description with
    | none =>
      simp only [preview_table_data, rowsOf, h, hd, failEnv]
      exact Nat.zero_le _
    | some cols =>
      simp only [preview_table_data, rowsOf, h, hd, List.length_map]
      exact hexec _ r h

/-- C5: with `limit=1000` the preview returns at most 50 rows; with
`limit=0` or the limit argument absent it returns at most the documented
default of 10 rows (the clamp sends `limit=0` to 1 and the absent case to
the Python default 10).  The hypothesis states that the external database
honors the `LIMIT n` clause of the query the tool sends. -/
theorem C5_preview_row_limits (exec : Driver) (t : String)
    (hexec : ∀ (n : Int) (r : ExecResult),
      exec (previewSql t n) [] = Except.ok r → r.rows.length ≤ n.toNat) :
    rowsOf (preview_table_data exec t 1000) ≤ 50 ∧
    rowsOf (preview_table_data exec t 0) ≤ 10 ∧
    rowsOf (preview_table_data_default exec t) ≤ 10 := by
  refine ⟨?_, ?_, ?_⟩
  · have h := preview_rows_le exec t 1000 hexec
    have e1 : (min (max 1 (1000 : Int)) 50).toNat = 50 := by decide
    rw [e1] at h
    exact h
  · have h := preview_rows_le exec t 0 hexec
    have e1 : (min (max 1 (0 : Int)) 50).toNat = 1 := by decide
    rw [e1] at h
    exact Nat.le_trans h (by decide)
  · have h := preview_rows_le exec t 10 hexec
    have e1 : (min (max 1 (10 : Int)) 50).toNat = 10 := by decide
    rw [e1] at h
    exact h

/-- C5 witness at a driver with an empty table. -/
theorem C5_preview_row_limits_witness :
    rowsOf (preview_table_data (fun _ _ => .ok ⟨some ["c"], [], 0⟩) "t" 1000) ≤ 50 ∧
    rowsOf (preview_table_data (fun _ _ => .ok ⟨some ["c"], [], 0⟩) "t" 0) ≤ 10 ∧
    rowsOf (preview_table_data_default (fun _ _ => .ok ⟨some ["c"], [], 0⟩) "t") ≤ 10 := by
  exact C5_preview_row_limits (fun _ _ => .ok ⟨some ["c"], [], 0⟩) "t"
    (fun n r h => by cases h; simp)

/-- C6: any statement whose case-folded text contains `"drop database"` or
`"truncate database"` is answered by `/run` with an immediate failure
envelope and the database driver is never invoked. -/
theorem C6_blocked_phrase_never_executes (exec : Driver) (raw : String)
    (h : containsAny (pyLower raw) blockedPhrases = true) :
    (run_query exec raw).env.success = false ∧
    (run_query exec raw).env.error = some "Dangerous query blocked for safety." ∧
    (run_query exec raw).calls = [] := by
  -- Move the containment fact from the submitted text to the stripped text
  -- the handler actually checks.
  have hor : pyContains (pyLower raw) "drop database" = true ∨
      pyContains (pyLower raw) "truncate database" = true := by
    simpa [containsAny, blockedPhrases] using h
  have transfer : ∀ w : String, w.data ≠ [] →
      isPyWs (w.data.headD ' ') = false → isPyWs (w.data.getLastD ' ') = false →
      pyContains (pyLower raw) w = true → pyContains (pyLower (pyStrip raw)) w = true := by
    intro w hne hh hl hc
    have h1 : strHas w.data (pyStripChars (raw.data.map lc)) = true :=
      strHas_pyStripChars hne hh hl hc
    rw [stripChars_map_lc] at h1
    exact h1
  have hstrip : containsAny (pyLower (pyStrip raw)) blockedPhrases = true := by
    rcases hor with hc | hc
    · have := transfer "drop database" (by decide) (by decide) (by decide) hc
      simp [containsAny, blockedPhrases, this]
    · have := transfer "truncate database" (by decide) (by decide) (by decide) hc
      simp [containsAny, blockedPhrases, this]
  have hne : ¬(pyStrip raw = "") := by
    intro hempty
    have hdata : pyStripChars raw.data = [] := congrArg String.data hempty
    rcases hor with hc | hc
    all_goals {
      have h1 : strHas _ (pyStripChars (raw.data.map lc)) = true :=
        strHas_pyStripChars (by decide) (by decide) (by decide) hc
      rw [stripChars_map_lc, hdata] at h1
      exact strHas_ne_nil (by decide) h1 (by simp)
    }
  simp [run_query, hne, hstrip, failEnv]

/-- C6 witness. -/
theorem C6_blocked_phrase_never_executes_witness :
    containsAny (pyLower "DROP Database shop") blockedPhrases = true ∧
    (run_query okDriver "DROP Database shop").env.success = false ∧
    (run_query okDriver "DROP Database shop").calls = [] := by
  have h := C6_blocked_phrase_never_executes okDriver "DROP Database shop" (by decide)
  exact ⟨by decide, h.1, h.2.2⟩

/-- C7: every statement accepted by `/run` (non-empty after stripping, not
denylisted) that begins case-insensitively with `select`, `show` or
`describe` is answered through the row path: the `data` field is never a
status string, and on success it is a list of rows-as-mappings keyed by the
cursor's column names. -/
theorem C7_read_returns_rows (exec : Driver) (raw : String)
    (hne : ¬(pyStrip raw = ""))
    (hblock : containsAny (pyLower (pyStrip raw)) blockedPhrases = false)
    (hread : readVerbCheck (pyStrip raw) = true) :
    (run_query exec raw).env.dataStatus = none ∧
    ((run_query exec raw).env.success = true →
      ∃ rows, (run_query exec raw).env.dataRows = some rows) := by
  cases h : exec (pyStrip raw) [] with
  | error e =>
    simp [run_query, hne, hblock, h, failEnv]
  | ok r =>
    cases hd : r.description with
    | none => simp [run_query, hne, hblock, h, hread, hd, failEnv]
    | some cols => simp [run_query, hne, hblock, h, hread, hd]

/-- C7 witness. -/
theorem C7_read_returns_rows_witness :
    (run_query okDriver "select * from t").env.dataStatus = none ∧
    ((run_query okDriver "select * from t").env.success = true →
      ∃ rows, (run_query okDriver "select * from t").env.dataRows = some rows) :=
  C7_read_returns_rows okDriver "select * from t" (by decide) (by decide) (by decide)

/-- C8: every statement accepted by `/run` that is not recognized as
read-only by prefix match commits the transaction and returns a status
string carrying the exact affected-row count reported by the driver. -/
theorem C8_write_commits_rowcount (exec : Driver) (raw : String) (r : ExecResult)
    (hne : ¬(pyStrip raw = ""))
    (hblock : containsAny (pyLower (pyStrip raw)) blockedPhrases = false)
    (hnotread : readVerbCheck (pyStrip raw) = false)
    (hexec : exec (pyStrip raw) [] = Except.ok r) :
    (run_query exec raw).committed = true ∧
    (run_query exec raw).env.success = true ∧
    (run_query exec raw).env.dataStatus
      = some ("Query executed successfully. Rows affected: " ++ toString r.rowcount) := by
  simp [run_query, hne, hblock, hexec, hnotread]

/-- C8 witness at a driver reporting 7 affected rows. -/
theorem C8_write_commits_rowcount_witness :
    (run_query (fun _ _ => .ok ⟨none, [], 7⟩) "DELETE FROM t").committed = true ∧
    (run_query (fun _ _ => .ok ⟨none, [], 7⟩) "DELETE FROM t").env.dataStatus
      = some "Query executed successfully. Rows affected: 7" := by
  have h := C8_write_commits_rowcount (fun _ _ => .ok ⟨none, [], 7⟩) "DELETE FROM t"
    ⟨none, [], 7⟩ (by decide) (by decide) (by decide) rfl
  exact ⟨h.1, h.2.2⟩

/-- C1: against a model stub that requests a registered tool in every
response, the `/ai-chat` tool-call loop stops after exactly
`max_iterations = 15` passes — neither earlier nor later — having performed
exactly 15 in-loop model round trips, and the text the handler then returns
(`response.text`) is the text of the last round trip's response. -/
theorem C1_tool_loop_iteration_cap (chat : Nat → ModelResponse)
    (execTool : String → List (String × Value) → Envelope) (init : ModelResponse)
    (hinit : ∃ c ∈ init.calls, TOOL_NAMES.contains c.name = true)
    (hchat : ∀ k, ∃ c ∈ (chat k).calls, TOOL_NAMES.contains c.name = true) :
    (runToolLoop chat execTool init).iterations = 15 ∧
    (runToolLoop chat execTool init).sends = 15 ∧
    (runToolLoop chat execTool init).response.text = (chat 14).text := by
  unfold runToolLoop maxIterations
  obtain ⟨h1, h2, h3⟩ := toolLoop_allKnown chat execTool 15 ⟨init, 0, [], 0⟩
    (by decide) hinit hchat
  dsimp only at h1 h2 h3
  exact ⟨h1, h2, by rw [h3]⟩

/-- C1 witness: a stub that always requests `list_tables`. -/
theorem C1_tool_loop_iteration_cap_witness :
    (runToolLoop (fun _ => stubResp) stubExec stubResp).iterations = 15 ∧
    (runToolLoop (fun _ => stubResp) stubExec stubResp).sends = 15 ∧
    (runToolLoop (fun _ => stubResp) stubExec stubResp).response.text = "working" := by
  have hc : ∃ c ∈ stubResp.calls, TOOL_NAMES.contains c.name = true := by decide
  have h := C1_tool_loop_iteration_cap (fun _ => stubResp) stubExec stubResp hc (fun _ => hc)
  exact ⟨h.1, h.2.1, h.2.2⟩

/-- C3 counterexample: a model response requesting only the unknown tool
`nonexistent_tool` makes the dispatch step produce no envelope at all — the
transparency log gains no record and no function response is collected —
contradicting the claim that a failure envelope is produced for the
invocation. -/
theorem C3_unknown_tool_counterexample :
    dispatchTurn stubExec 1 [⟨"nonexistent_tool", []⟩] = ([], 0) := rfl

/-- C3 (amended): an unknown tool name is silently skipped — the dispatch
step produces no envelope, no transparency-log record and no function
response for it — and the loop does not abort: with a response consisting
only of unknown names, no follow-up message is sent, the same response is
reprocessed, and the loop runs on to the iteration cap with the response
text unchanged. -/
theorem C3_unknown_tool_skipped (chat : Nat → ModelResponse)
    (execTool : String → List (String × Value) → Envelope) (iter : Nat)
    (calls : List FnCall) (r : ModelResponse)
    (hunk : ∀ c ∈ calls, TOOL_NAMES.contains c.name = false)
    (hne : r.calls ≠ [])
    (hrunk : ∀ c ∈ r.calls, TOOL_NAMES.contains c.name = false) :
    dispatchTurn execTool iter calls = ([], 0) ∧
    runToolLoop chat execTool r = ⟨r, 15, [], 0⟩ := by
  constructor
  · exact dispatchFold_unknown execTool iter calls ([], 0) hunk
  · unfold runToolLoop maxIterations
    have h := toolLoop_allUnknown chat execTool 15 ⟨r, 0, [], 0⟩ hne hrunk
    simpa using h

/-- C3 witness. -/
theorem C3_unknown_tool_skipped_witness :
    dispatchTurn stubExec 2 [⟨"nonexistent_tool", [("x", Value.int 1)]⟩] = ([], 0) ∧
    runToolLoop (fun _ => stubResp) stubExec badResp = ⟨badResp, 15, [], 0⟩ := by
  have h := C3_unknown_tool_skipped (fun _ => stubResp) stubExec 2
    [⟨"nonexistent_tool", [("x", Value.int 1)]⟩] badResp
    (by decide) (by decide) (by decide)
  exact h

/-- The 101st distinct session id and the 100 later ids used to exercise
eviction: `"zz"` is inserted first, then `"a0"`..`"a99"`. -/
def c2Ids : List String := (List.range 100).map (fun i => String.append "a" (toString i))

/-- The session store after 101 `/ai-chat` requests with 101 distinct
session ids, the oldest-inserted being `"zz"`. -/
def c2Store : Sessions :=
  c2Ids.foldl (fun st i => sessionStep st i "u" "r") (sessionStep [] "zz" "u" "r")

set_option maxRecDepth 100000 in
/-- C2 (code bug): after 101 distinct session identifiers are used, the
store evicts the lexicographically smallest key (`min(keys())`), not the
oldest-inserted one.  Here the oldest-inserted session `"zz"` **remains**
retrievable while `"a0"` — inserted later but lexicographically smallest —
is the one evicted; exactly one session is gone. -/
theorem C2_session_eviction_lexicographic :
    c2Ids.Nodup ∧ ("zz" ∈ c2Ids) = False ∧
    sessionsHasKey c2Store "zz" = true ∧
    sessionsHasKey c2Store "a0" = false ∧
    c2Store.length = 100 := by decide

/-- C9: across the tool registry and the direct `/run` path, every
envelope returned with `success = false` carries an error string, and a
driver that raises is always caught and converted into a failure envelope
whose `error` field is exactly the exception's message (the guarded
conjuncts require that the statement reaches the driver at all, i.e. the
pre-driver safety checks pass). -/
theorem C9_failure_envelope_invariant (exec : Driver) (e dbn t w col v q p raw : String)
    (lim : Int) :
    (((list_tables exec).env.success = false →
        (list_tables exec).env.error.isSome = true) ∧
     ((describe_table exec t).env.success = false →
        (describe_table exec t).env.error.isSome = true) ∧
     ((get_foreign_keys exec dbn t).env.success = false →
        (get_foreign_keys exec dbn t).env.error.isSome = true) ∧
     ((preview_table_data exec t lim).env.success = false →
        (preview_table_data exec t lim).env.error.isSome = true) ∧
     ((execute_select_query exec q p).env.success = false →
        (execute_select_query exec q p).env.error.isSome = true) ∧
     ((execute_autonomous_query exec q p).env.success = false →
        (execute_autonomous_query exec q p).env.error.isSome = true) ∧
     ((get_table_relationships exec dbn).env.success = false →
        (get_table_relationships exec dbn).env.error.isSome = true) ∧
     ((count_records exec t w).env.success = false →
        (count_records exec t w).env.error.isSome = true) ∧
     ((search_records exec t col v).env.success = false →
        (search_records exec t col v).env.error.isSome = true) ∧
     ((run_query exec raw).env.success = false →
        (run_query exec raw).env.error.isSome = true)) ∧
    ((∀ s ps, exec s ps = Except.error e) →
     (list_tables exec).env = failEnv e ∧
     (describe_table exec t).env = failEnv e ∧
     (get_foreign_keys exec dbn t).env = failEnv e ∧
     (preview_table_data exec t lim).env = failEnv e ∧
     (get_table_relationships exec dbn).env = failEnv e ∧
     (count_records exec t w).env = failEnv e ∧
     (search_records exec t col v).env = failEnv e ∧
     (pyStartsWith (pyUpper (pyStrip q)) "SELECT" = true →
        (execute_select_query exec q p).env.success = false ∧
        (execute_select_query exec q p).env.error = some e) ∧
     (pyStartsWith (pyUpper (pyStrip q)) "SELECT" = true →
      containsAny (pyUpper q) dangerousKeywords = false →
        (execute_autonomous_query exec q p).env.success = false ∧
        (execute_autonomous_query exec q p).env.error = some e) ∧
     (¬(pyStrip raw = "") →
      containsAny (pyLower (pyStrip raw)) blockedPhrases = false →
        (run_query exec raw).env = failEnv e)) := by
  constructor
  · refine ⟨?_, ?_, ?_, ?_, ?_, ?_, ?_, ?_, ?_, ?_⟩
    · cases h : exec "SHOW TABLES" [] with
      | error err => simp [list_tables, h, failEnv]
      | ok r =>
        cases h2 : rowHeads r.rows with
        | none => simp [list_tables, h, h2, failEnv]
        | some tables => simp [list_tables, h, h2]
    · cases h : exec ("DESCRIBE `" ++ t ++ "`") [] with
      | error err => simp [describe_table, h, failEnv]
      | ok r =>
        cases h2 : mapOption extract6 r.rows with
        | none => simp [describe_table, h, h2, failEnv]
        | some schema => simp [describe_table, h, h2]
    · cases h : exec (fkQuery dbn t) [] with
      | error err => simp [get_foreign_keys, h, failEnv]
      | ok r =>
        cases h2 : mapOption extract4 r.rows with
        | none => simp [get_foreign_keys, h, h2, failEnv]
        | some rels => simp [get_foreign_keys, h, h2]
    · cases h : exec (previewSql t (min (max 1 lim) 50)) [] with
      | error err => simp [preview_table_data, h, failEnv]
      | ok r =>
        cases h2 : r.description with
        | none => simp [preview_table_data, h, h2, failEnv]
        | some cols => simp [preview_table_data, h, h2]
    · by_cases hc : (pyStartsWith (pyUpper (pyStrip q)) "SELECT"
          || pyStartsWith (pyUpper (pyStrip q)) "SHOW"
          || pyStartsWith (pyUpper (pyStrip q)) "DESCRIBE") = true
      · cases h : exec q [] with
        | error err => simp [execute_select_query, hc, h]
        | ok r => simp [execute_select_query, hc, h]
      · simp [execute_select_query, hc, failEnv]
    · by_cases h1 : pyStartsWith (pyUpper (pyStrip q)) "SELECT" = true
      · by_cases h2 : containsAny (pyUpper q) dangerousKeywords = true
        · simp [execute_autonomous_query, h1, h2]
        · cases h : exec q [] with
          | error err => simp [execute_autonomous_query, h1, h2, h]
          | ok r => simp [execute_autonomous_query, h1, h2, h]
      · simp [execute_autonomous_query, h1]
    · cases h : exec (relQuery dbn) [] with
      | error err => simp [get_table_relationships, h, failEnv]
      | ok r =>
        cases h2 : mapOption extract5 r.rows with
        | none => simp [get_table_relationships, h, h2, failEnv]
        | some rels => simp [get_table_relationships, h, h2]
    · cases h : exec (countSql t w) [] with
      | error err => simp [count_records, h, failEnv]
      | ok r =>
        cases h2 : r.rows with
        | nil => simp [count_records, h, h2, failEnv]
        | cons row rest =>
          cases h3 : row with
          | nil => simp [count_records, h, h2, h3, failEnv]
          | cons cnt rest2 => simp [count_records, h, h2, h3]
    · cases h : exec (searchSql t col) ["%" ++ v ++ "%"] with
      | error err => simp [search_records, h, failEnv]
      | ok r =>
        cases h2 : r.description with
        | none => simp [search_records, h, h2, failEnv]
        | some cols => simp [search_records, h, h2]
    · by_cases h1 : pyStrip raw = ""
      · simp [run_query, h1, failEnv]
      · by_cases h2 : containsAny (pyLower (pyStrip raw)) blockedPhrases = true
        · simp [run_query, h1, h2, failEnv]
        · cases h : exec (pyStrip raw) [] with
          | error err => simp [run_query, h1, h2, h, failEnv]
          | ok r =>
            by_cases h3 : readVerbCheck (pyStrip raw) = true
            · cases h4 : r.description with
              | none => simp [run_query, h1, h2, h, h3, h4, failEnv]
              | some cols => simp [run_query, h1, h2, h, h3, h4]
            · simp [run_query, h1, h2, h, h3]
  · intro herr
    refine ⟨?_, ?_, ?_, ?_, ?_, ?_, ?_, ?_, ?_, ?_⟩
    · simp [list_tables, herr]
    · simp [describe_table, herr]
    · simp [get_foreign_keys, herr]
    · simp [preview_table_data, herr]
    · simp [get_table_relationships, herr]
    · simp [count_records, herr]
    · simp [search_records, herr]
    · intro hsel
      simp [execute_select_query, hsel, herr, failEnv]
    · intro hsel hkw
      simp [execute_autonomous_query, hsel, hkw, herr]
    · intro h1 h2
      simp [run_query, h1, h2, herr]

/-- C9 witness: a permanently raising driver yields failure envelopes
carrying the exception message on both a registry tool and the direct
path. -/
theorem C9_failure_envelope_invariant_witness :
    (list_tables errDriver).env = failEnv "boom" ∧
    (list_tables errDriver).env.error.isSome = true ∧
    (run_query errDriver "UPDATE t SET x = 1").env = failEnv "boom" := by
  have h := C9_failure_envelope_invariant errDriver "boom" "db" "t" "" "c" "v"
    "SELECT 1" "p" "UPDATE t SET x = 1" 5
  have hb := h.2 (fun _ _ => rfl)
  refine ⟨hb.1, h.1.1 ?_, hb.2.2.2.2.2.2.2.2.2 (by decide) (by decide)⟩
  rw [hb.1]
  rfl
